import Mathlib

/-!
# Summit Resolutions — verification of the goal-store logic

A shallow embedding of the client-side goal store of the "Summit
Resolutions" single-page application, together with proofs about its
operations.  The embedded functions mirror, name for name, the
functions of the application's single page module: period-key
derivation (`getPeriodKey`), target resolution (`getTargetForGoal`),
completion (`isGoalComplete`), the dashboard statistics (`stats`),
goal creation (`handleSubmit`), count adjustment (`updateGoalCount`),
the progress meter of a goal card (`progress`), and the initial load
from persistent storage (`loadStoredGoals`).

JavaScript-specific behaviour is embedded explicitly:

* number/`undefined` truthiness is `jsTruthy` (`0` and `undefined`
  are falsy, every other number including negatives is truthy);
* `Number.parseInt(s, 10)` is `jsParseInt` (leading whitespace
  skipped, optional sign, leading decimal digits, `NaN` — modelled
  as `none` — when no digit is found);
* `Math.round` is `jsRound` (half rounds up, i.e. `⌊x + 1/2⌋`);
* an object literal `Record<string, number>` is an association list
  `List (String × Int)`, read by `lookupEntry` (property access with
  `?? 0` fallback) and updated by `setEntry` (object spread with a
  computed key: an existing key keeps its position, a new key is
  appended);
* `new Date()` is a `JsDate` value passed explicitly where the
  source defaults the parameter to "now".
-/

namespace Summit

/-- The three goal cadences of the `GoalType` union. -/
inductive GoalType where
  | daily
  | monthly
  | anytime
  deriving DecidableEq, Repr

instance : BEq GoalType := instBEqOfDecidableEq

instance : LawfulBEq GoalType where
  rfl := by simp [BEq.beq]
  eq_of_beq := by
    intro a b h
    simpa [BEq.beq] using h

/-- The relevant accessors of a JavaScript `Date`: `getFullYear()`,
`getMonth()` (0-based month index) and `getDate()` (day of month). -/
structure JsDate where
  year : Nat
  monthIndex : Nat
  day : Nat
  deriving DecidableEq, Repr

/-- A goal record.  `entries` is the JS object `Record<string, number>`
modelled as an association list in property order. -/
structure Goal where
  id : String
  title : String
  type : GoalType
  notes : String
  targetCount : Option Int
  dueDate : Option String
  createdAt : String
  entries : List (String × Int)
  deriving DecidableEq, Repr

/-- The creation form state (all fields are raw input text except the
type selector). -/
structure GoalForm where
  title : String
  type : GoalType
  notes : String
  targetCount : String
  dueDate : String
  deriving DecidableEq, Repr

/-- JS truthiness of a `number | undefined` value: `undefined` and `0`
are falsy, every other number is truthy. -/
def jsTruthy : Option Int → Bool
  | none => false
  | some n => n != 0

/-- `Math.round` on an exact rational: round half up, `⌊q + 1/2⌋`. -/
def jsRound (q : Rat) : Int := (q + 1 / 2).floor

/-- `String(value).padStart(2, "0")` for a natural number. -/
def pad (value : Nat) : String :=
  let s := toString value
  if s.length < 2 then "0" ++ s else s

/-- `formatDateKey`: the `YYYY-MM-DD` key of a date. -/
def formatDateKey (date : JsDate) : String :=
  toString date.year ++ "-" ++ pad (date.monthIndex + 1) ++ "-" ++ pad date.day

/-- `formatMonthKey`: the `YYYY-MM` key of a date. -/
def formatMonthKey (date : JsDate) : String :=
  toString date.year ++ "-" ++ pad (date.monthIndex + 1)

/-- `getPeriodKey(type, date)`: the storage bucket a check-in of the
given goal type addresses at the given date. -/
def getPeriodKey (type : GoalType) (date : JsDate) : String :=
  if type = GoalType.daily then formatDateKey date
  else if type = GoalType.monthly then formatMonthKey date
  else "all"

/-- Property read `entries[key]` on the association-list model of a JS
object: the value at the first matching key, if any. -/
def lookupEntry (entries : List (String × Int)) (key : String) : Option Int :=
  match entries with
  | [] => none
  | (k, v) :: rest => if k = key then some v else lookupEntry rest key

/-- `getTargetForGoal(goal)`: `goal.targetCount` when truthy, else
`undefined` for anytime goals and `1` otherwise. -/
def getTargetForGoal (goal : Goal) : Option Int :=
  if jsTruthy goal.targetCount then goal.targetCount
  else if goal.type = GoalType.anytime then none
  else some 1

/-- `getCountForPeriod(goal, periodKey)`: `goal.entries[periodKey] ?? 0`. -/
def getCountForPeriod (goal : Goal) (periodKey : String) : Int :=
  (lookupEntry goal.entries periodKey).getD 0

/-- `isGoalComplete(goal, periodKey)`: `count >= target` when the
target is truthy, else `count > 0`. -/
def isGoalComplete (goal : Goal) (periodKey : String) : Bool :=
  let count := getCountForPeriod goal periodKey
  match getTargetForGoal goal with
  | some t => if t ≠ 0 then decide (count ≥ t) else decide (count > 0)
  | none => decide (count > 0)

/-- The progress value of a `GoalCard`:
`target ? Math.min(100, Math.round((count / target) * 100)) : 0`
(the progress bar is only rendered when the target is truthy). -/
def progress (goal : Goal) (periodKey : String) : Int :=
  let count := getCountForPeriod goal periodKey
  match getTargetForGoal goal with
  | some t => if t ≠ 0 then min 100 (jsRound ((count : Rat) / (t : Rat) * 100)) else 0
  | none => 0

/-- The dashboard statistics record returned by the `stats` memo. -/
structure Stats where
  totalGoals : Nat
  dailyDone : Nat
  monthlyDone : Nat
  anytimeDone : Nat
  completionRate : Int
  deriving DecidableEq, Repr

/-- `dailyGoals.filter(isGoalComplete(goal, dailyKey)).length`. -/
def dailyDoneOf (now : JsDate) (goals : List Goal) : Nat :=
  ((goals.filter (fun g => g.type == GoalType.daily)).filter
    (fun g => isGoalComplete g (getPeriodKey GoalType.daily now))).length

/-- `monthlyGoals.filter(isGoalComplete(goal, monthlyKey)).length`. -/
def monthlyDoneOf (now : JsDate) (goals : List Goal) : Nat :=
  ((goals.filter (fun g => g.type == GoalType.monthly)).filter
    (fun g => isGoalComplete g (getPeriodKey GoalType.monthly now))).length

/-- `anytimeGoals.filter(isGoalComplete(goal, "all")).length`. -/
def anytimeDoneOf (goals : List Goal) : Nat :=
  ((goals.filter (fun g => g.type == GoalType.anytime)).filter
    (fun g => isGoalComplete g "all")).length

/-- `completedGoals = dailyDone + monthlyDone + anytimeDone`. -/
def completedGoalsOf (now : JsDate) (goals : List Goal) : Nat :=
  dailyDoneOf now goals + monthlyDoneOf now goals + anytimeDoneOf goals

/-- The `stats` memo: per-type completion counts for the current
period keys and the overall completion rate
`totalGoals ? Math.round((completedGoals / totalGoals) * 100) : 0`. -/
def stats (now : JsDate) (goals : List Goal) : Stats :=
  { totalGoals := goals.length
    dailyDone := dailyDoneOf now goals
    monthlyDone := monthlyDoneOf now goals
    anytimeDone := anytimeDoneOf goals
    completionRate :=
      if goals.length ≠ 0 then
        jsRound ((completedGoalsOf now goals : Rat) / (goals.length : Rat) * 100)
      else 0 }

/-- `String.prototype.trim()`: strip whitespace from both ends of a
string. -/
def jsTrim (s : String) : String :=
  String.mk (((s.toList.dropWhile Char.isWhitespace).reverse.dropWhile
    Char.isWhitespace).reverse)

/-- `Number.parseInt(s, 10)`: skip leading whitespace, read an
optional sign and then leading decimal digits; `NaN` (here `none`)
when no digit follows. -/
def jsParseInt (s : String) : Option Int :=
  let trimmed := s.toList.dropWhile Char.isWhitespace
  let signAndRest : Int × List Char :=
    match trimmed with
    | '-' :: rest => (-1, rest)
    | '+' :: rest => (1, rest)
    | _ => (1, trimmed)
  let digits := signAndRest.2.takeWhile Char.isDigit
  if digits.isEmpty then none
  else some (signAndRest.1 * (digits.foldl (fun acc c => acc * 10 + (c.toNat - 48)) 0 : Nat))

/-- The target-count normalisation of `handleSubmit`:
`form.targetCount ? Number.parseInt(form.targetCount, 10) : undefined`
followed by
`Number.isNaN(targetCount) || targetCount === 0 ? undefined : targetCount`. -/
def submittedTargetCount (input : String) : Option Int :=
  let parsed := if input ≠ "" then jsParseInt input else none
  match parsed with
  | none => none
  | some t => if t = 0 then none else some t

/-- `handleSubmit`: no-op when the title trims to empty, otherwise
prepend a fresh goal built from the form.  The fresh id
(`crypto.randomUUID()`) and the creation timestamp
(`new Date().toISOString()`) are passed in explicitly. -/
def handleSubmit (form : GoalForm) (freshId : String) (nowIso : String)
    (goals : List Goal) : List Goal :=
  if jsTrim form.title = "" then goals
  else
    let nextGoal : Goal :=
      { id := freshId
        title := jsTrim form.title
        type := form.type
        notes := jsTrim form.notes
        targetCount := submittedTargetCount form.targetCount
        dueDate := if form.dueDate = "" then none else some form.dueDate
        createdAt := nowIso
        entries := [] }
    nextGoal :: goals

/-- The goal record built by `handleSubmit` for a non-blank title. -/
def createdGoal (form : GoalForm) (freshId : String) (nowIso : String) : Goal :=
  { id := freshId
    title := jsTrim form.title
    type := form.type
    notes := jsTrim form.notes
    targetCount := submittedTargetCount form.targetCount
    dueDate := if form.dueDate = "" then none else some form.dueDate
    createdAt := nowIso
    entries := [] }

/-- Object spread with a computed key,
`{...entries, [key]: value}`: replace the value in place when the key
exists, append the pair otherwise. -/
def setEntry (entries : List (String × Int)) (key : String) (value : Int) :
    List (String × Int) :=
  if (lookupEntry entries key).isSome then
    entries.map (fun p => if p.1 = key then (key, value) else p)
  else entries ++ [(key, value)]

/-- The function `updateGoalCount` maps over the goal list: a goal
with a different id is returned as is, the matching goal gets the
entry at its current period key set to
`Math.max(0, currentCount + delta)`. -/
def adjustOne (now : JsDate) (goalId : String) (delta : Int) (goal : Goal) : Goal :=
  if goal.id ≠ goalId then goal
  else
    let periodKey := getPeriodKey goal.type now
    let currentCount := getCountForPeriod goal periodKey
    let nextCount := max 0 (currentCount + delta)
    { goal with entries := setEntry goal.entries periodKey nextCount }

/-- `updateGoalCount(goalId, delta)`: map `adjustOne` over the list. -/
def updateGoalCount (now : JsDate) (goalId : String) (delta : Int)
    (goals : List Goal) : List Goal :=
  goals.map (adjustOne now goalId delta)

/-- `deleteGoal(goalId)`: keep every goal with a different id. -/
def deleteGoal (goalId : String) (goals : List Goal) : List Goal :=
  goals.filter (fun goal => goal.id != goalId)

/-- `n` successive check-in clicks on one goal (each click calls
`updateGoalCount(goal.id, 1)`). -/
def checkIns (now : JsDate) (goalId : String) : Nat → List Goal → List Goal
  | 0, goals => goals
  | n + 1, goals => updateGoalCount now goalId 1 (checkIns now goalId n goals)

/-- A JSON value, as produced by `JSON.parse`. -/
inductive Json where
  | null
  | bool (b : Bool)
  | num (q : Rat)
  | str (s : String)
  | arr (elems : List Json)
  | obj (fields : List (String × Json))

/-- The initial load effect: read the stored string (`none` models a
`null` from `localStorage.getItem`); when it is truthy, `JSON.parse`
it inside `try`/`catch` and, when the result is an array, accept it
verbatim as the goal list; in every other case the state keeps its
initial value `[]`.  `JSON.parse` itself is a platform builtin and is
passed in as an abstract parser returning `none` where it would throw. -/
def loadStoredGoals (jsonParse : String → Option Json) (stored : Option String) :
    List Json :=
  match stored with
  | none => []
  | some s =>
    if s == "" then []
    else
      match jsonParse s with
      | none => []
      | some (Json.arr elems) => elems
      | some _ => []

/-! ## Concrete sample data (used to instantiate the theorems) -/

/-- A fixed "now": 2026-01-11 (month index 0 is January). -/
def sampleDate : JsDate := ⟨2026, 0, 11⟩

/-- A fresh daily goal without a target. -/
def sampleGoal : Goal :=
  ⟨"a", "stretch", GoalType.daily, "", none, none, "2026-01-01T00:00:00Z", []⟩

/-- A monthly goal carrying an entry for a past period. -/
def pastEntriesGoal : Goal :=
  ⟨"a", "read", GoalType.monthly, "n", some 2, some "2026-02-01", "c", [("2025-12", 3)]⟩

/-- A daily goal with target count 4 and no check-ins yet. -/
def dailyFourGoal : Goal :=
  ⟨"g1", "walk", GoalType.daily, "", some 4, none, "2026-01-11T00:00:00Z", []⟩

/-- An anytime goal without a target, checked in once. -/
def anytimeSampleGoal : Goal :=
  ⟨"b", "trip", GoalType.anytime, "", none, none, "c", [("all", 1)]⟩

/-- A stored goal whose target count is the (falsy) number zero. -/
def zeroTargetGoal : Goal := ⟨"z", "t", GoalType.daily, "", some 0, none, "c", []⟩

/-- A form whose title is only whitespace. -/
def blankTitleForm : GoalForm := ⟨"   ", GoalType.daily, "", "", ""⟩

/-- A form with surrounding whitespace in the title and a target. -/
def hikeForm : GoalForm := ⟨" hike ", GoalType.anytime, " note ", "4", ""⟩

/-- A form whose target-count text is a negative number. -/
def negTargetForm : GoalForm := ⟨"x", GoalType.daily, "", "-3", ""⟩

/-- A parser that always fails (models `JSON.parse` throwing). -/
def failParse : String → Option Json := fun _ => none

/-- A parser returning a one-element array for any non-empty input. -/
def arrParse : String → Option Json :=
  fun s => if s = "" then none else some (Json.arr [Json.num 1])

/-! ## Supporting lemmas -/

/-- `jsRound` agrees with the Mathlib floor of `q + 1/2`. -/
theorem jsRound_eq (q : Rat) : jsRound q = Int.floor (q + 1 / 2) := by
  simp [jsRound, Rat.floor_def', Rat.floor_def]

/-- `Math.round` of a non-negative value is non-negative. -/
theorem jsRound_nonneg {q : Rat} (h : 0 ≤ q) : 0 ≤ jsRound q := by
  rw [jsRound_eq]
  exact Int.le_floor.2 (by push_cast; linarith)

/-- `Math.round` of a value at most `100` is at most `100`. -/
theorem jsRound_le_hundred {q : Rat} (h : q ≤ 100) : jsRound q ≤ 100 := by
  rw [jsRound_eq]
  have h2 : Int.floor (q + 1 / 2) < 101 := Int.floor_lt.2 (by push_cast; linarith)
  omega

/-- Replacing the value of a present key makes that key read the new
value. -/
theorem lookupEntry_replace (entries : List (String × Int)) (key : String) (value : Int)
    (h : (lookupEntry entries key).isSome) :
    lookupEntry (entries.map fun p => if p.1 = key then (key, value) else p) key
      = some value := by
  induction entries with
  | nil => simp [lookupEntry] at h
  | cons p rest ih =>
    by_cases hk : p.1 = key
    · rw [List.map_cons, if_pos hk]
      simp [lookupEntry]
    · have h2 : (lookupEntry rest key).isSome := by simpa [lookupEntry, hk] using h
      rw [List.map_cons, if_neg hk]
      simpa [lookupEntry, hk] using ih h2

/-- Appending a pair with a fresh key makes that key read its value. -/
theorem lookupEntry_append (entries : List (String × Int)) (key : String) (value : Int)
    (h : lookupEntry entries key = none) :
    lookupEntry (entries ++ [(key, value)]) key = some value := by
  induction entries with
  | nil => simp [lookupEntry]
  | cons p rest ih =>
    by_cases hk : p.1 = key
    · simp [lookupEntry, hk] at h
    · have h2 : lookupEntry rest key = none := by simpa [lookupEntry, hk] using h
      simpa [lookupEntry, hk] using ih h2

/-- After `setEntry`, the written key reads the written value. -/
theorem lookupEntry_setEntry_self (entries : List (String × Int)) (key : String)
    (value : Int) : lookupEntry (setEntry entries key value) key = some value := by
  rw [setEntry]
  cases he : lookupEntry entries key with
  | some v =>
    rw [if_pos (by simp [he])]
    exact lookupEntry_replace entries key value (by simp [he])
  | none =>
    rw [if_neg (by simp [he])]
    exact lookupEntry_append entries key value he

/-- Replacing the value of one key leaves reads of other keys alone. -/
theorem lookupEntry_replace_ne (entries : List (String × Int)) (key : String)
    (value : Int) (k : String) (hne : k ≠ key) :
    lookupEntry (entries.map fun p => if p.1 = key then (key, value) else p) k
      = lookupEntry entries k := by
  induction entries with
  | nil => simp [lookupEntry]
  | cons p rest ih =>
    have hkk : key ≠ k := Ne.symm hne
    by_cases hk : p.1 = key
    · have hpk : p.1 ≠ k := by rw [hk]; exact hkk
      rw [List.map_cons, if_pos hk]
      simpa [lookupEntry, hkk, hpk] using ih
    · rw [List.map_cons, if_neg hk]
      by_cases hpk : p.1 = k
      · simp [lookupEntry, hpk]
      · simpa [lookupEntry, hpk] using ih

/-- Appending a pair with one key leaves reads of other keys alone. -/
theorem lookupEntry_append_ne (entries : List (String × Int)) (key : String)
    (value : Int) (k : String) (hne : k ≠ key) :
    lookupEntry (entries ++ [(key, value)]) k = lookupEntry entries k := by
  induction entries with
  | nil => simp [lookupEntry, Ne.symm hne]
  | cons p rest ih =>
    by_cases hpk : p.1 = k
    · simp [lookupEntry, hpk]
    · simpa [lookupEntry, hpk] using ih

/-- After `setEntry`, every other key reads its old value. -/
theorem lookupEntry_setEntry_ne (entries : List (String × Int)) (key : String)
    (value : Int) (k : String) (hne : k ≠ key) :
    lookupEntry (setEntry entries key value) k = lookupEntry entries k := by
  rw [setEntry]
  by_cases h : (lookupEntry entries key).isSome
  · rw [if_pos h]
    exact lookupEntry_replace_ne entries key value k hne
  · rw [if_neg h]
    exact lookupEntry_append_ne entries key value k hne

/-- The goal produced by `adjustOne` for the matching id. -/
def adjustedGoal (now : JsDate) (delta : Int) (goal : Goal) : Goal :=
  { goal with entries := setEntry goal.entries (getPeriodKey goal.type now) (max 0 (getCountForPeriod goal (getPeriodKey goal.type now) + delta)) }

/-- A goal whose id differs is untouched by `adjustOne`. -/
theorem adjustOne_of_ne (now : JsDate) (goalId : String) (delta : Int) (goal : Goal)
    (h : goal.id ≠ goalId) : adjustOne now goalId delta goal = goal := by
  simp [adjustOne, h]

/-- The matching goal gets its current-period entry set to the clamped
new count. -/
theorem adjustOne_of_eq (now : JsDate) (goalId : String) (delta : Int) (goal : Goal)
    (h : goal.id = goalId) :
    adjustOne now goalId delta goal = adjustedGoal now delta goal := by
  simp [adjustOne, adjustedGoal, h]

/-- `getTargetForGoal` never returns `some 0`: a zero stored target is
falsy and falls through to the defaults. -/
theorem getTargetForGoal_ne_zero (goal : Goal) : getTargetForGoal goal ≠ some 0 := by
  rw [getTargetForGoal]
  cases h : goal.targetCount with
  | none => by_cases hty : goal.type = GoalType.anytime <;> simp [jsTruthy, hty]
  | some t =>
    by_cases ht : t = 0
    · subst ht
      by_cases hty : goal.type = GoalType.anytime <;> simp [jsTruthy, hty]
    · simp [jsTruthy, ht]

/-- The three type filters partition the goal list. -/
theorem filter_types_length (goals : List Goal) :
    (goals.filter (fun g => g.type == GoalType.daily)).length
      + (goals.filter (fun g => g.type == GoalType.monthly)).length
      + (goals.filter (fun g => g.type == GoalType.anytime)).length
      = goals.length := by
  induction goals with
  | nil => simp
  | cons g rest ih =>
    cases h : g.type <;> simp [List.filter_cons, h] <;> omega

/-- At most as many goals are complete as exist. -/
theorem completedGoalsOf_le (now : JsDate) (goals : List Goal) :
    completedGoalsOf now goals ≤ goals.length := by
  have hd := List.length_filter_le
    (fun g => isGoalComplete g (getPeriodKey GoalType.daily now))
    (goals.filter (fun g => g.type == GoalType.daily))
  have hm := List.length_filter_le
    (fun g => isGoalComplete g (getPeriodKey GoalType.monthly now))
    (goals.filter (fun g => g.type == GoalType.monthly))
  have ha := List.length_filter_le (fun g => isGoalComplete g "all")
    (goals.filter (fun g => g.type == GoalType.anytime))
  have hp := filter_types_length goals
  rw [completedGoalsOf, dailyDoneOf, monthlyDoneOf, anytimeDoneOf]
  omega

/-! ## Claims -/

/-- C1: `Adjust(goalId, delta)` leaves the list unchanged when no goal
has the id; otherwise the matching goal's entry at its current period
key (derived from its type and the current date) becomes
`max 0 (oldCount + delta)`, where a missing entry reads as 0 — so in
particular `Adjust(id, -1)` at count 0 leaves the count at 0, since
`max 0 (0 - 1) = 0`. -/
theorem adjust_clamped_count (now : JsDate) (goals : List Goal) (goalId : String)
    (delta : Int) :
    ((∀ g ∈ goals, g.id ≠ goalId) → updateGoalCount now goalId delta goals = goals) ∧
    (updateGoalCount now goalId delta goals).length = goals.length ∧
    (∀ (i : Nat) (g : Goal), goals[i]? = some g → g.id = goalId →
      ∃ g', (updateGoalCount now goalId delta goals)[i]? = some g' ∧
        getCountForPeriod g' (getPeriodKey g.type now)
          = max 0 (getCountForPeriod g (getPeriodKey g.type now) + delta)) := by
  refine ⟨?_, by simp [updateGoalCount], ?_⟩
  · intro h
    have heq : goals.map (adjustOne now goalId delta) = goals.map id :=
      List.map_congr_left fun g hg => adjustOne_of_ne now goalId delta g (h g hg)
    simpa [updateGoalCount] using heq
  · intro i g hg hid
    refine ⟨adjustOne now goalId delta g, by simp [updateGoalCount, List.getElem?_map, hg], ?_⟩
    rw [adjustOne_of_eq now goalId delta g hid]
    simp [adjustedGoal, getCountForPeriod, lookupEntry_setEntry_self]

/-- C1 witness: on a one-goal list, adjusting a non-existent id keeps
the list, and adjusting the matching id sets the clamped count. -/
theorem adjust_clamped_count_witness :
    (updateGoalCount sampleDate "zzz" 1 [sampleGoal] = [sampleGoal]) ∧
    (∃ g', (updateGoalCount sampleDate "a" (-1) [sampleGoal])[0]? = some g' ∧
      getCountForPeriod g' (getPeriodKey sampleGoal.type sampleDate)
        = max 0 (getCountForPeriod sampleGoal (getPeriodKey sampleGoal.type sampleDate)
            + (-1))) :=
  ⟨(adjust_clamped_count sampleDate [sampleGoal] "zzz" 1).1 (by decide),
   (adjust_clamped_count sampleDate [sampleGoal] "a" (-1)).2.2 0 sampleGoal rfl rfl⟩

/-- C9: `Adjust` only touches the matching goal's entry at its current
period key: entries at every other key keep their old values, every
other field of the goal is unchanged, goals with other ids are
unchanged, and the list's order and length are preserved. -/
theorem adjust_frame (now : JsDate) (goals : List Goal) (goalId : String)
    (delta : Int) :
    (updateGoalCount now goalId delta goals).length = goals.length ∧
    ∀ (i : Nat) (g : Goal), goals[i]? = some g →
      ∃ g', (updateGoalCount now goalId delta goals)[i]? = some g' ∧
        (g.id ≠ goalId → g' = g) ∧
        (g.id = goalId →
          g'.id = g.id ∧ g'.title = g.title ∧ g'.type = g.type ∧
            g'.notes = g.notes ∧ g'.targetCount = g.targetCount ∧
            g'.dueDate = g.dueDate ∧ g'.createdAt = g.createdAt ∧
            ∀ k, k ≠ getPeriodKey g.type now →
              lookupEntry g'.entries k = lookupEntry g.entries k) := by
  refine ⟨by simp [updateGoalCount], ?_⟩
  intro i g hg
  refine ⟨adjustOne now goalId delta g,
    by simp [updateGoalCount, List.getElem?_map, hg], ?_, ?_⟩
  · intro hne
    exact adjustOne_of_ne now goalId delta g hne
  · intro hid
    rw [adjustOne_of_eq now goalId delta g hid]
    refine ⟨rfl, rfl, rfl, rfl, rfl, rfl, rfl, ?_⟩
    intro k hk
    simp only [adjustedGoal]
    exact lookupEntry_setEntry_ne g.entries (getPeriodKey g.type now) _ k hk

/-- C9 witness: incrementing a monthly goal keeps its past-period
entry, its other fields, and the list length. -/
theorem adjust_frame_witness :
    (updateGoalCount sampleDate "a" 1 [pastEntriesGoal]).length
        = [pastEntriesGoal].length ∧
    (∃ g', (updateGoalCount sampleDate "a" 1 [pastEntriesGoal])[0]? = some g' ∧
      (pastEntriesGoal.id ≠ "a" → g' = pastEntriesGoal) ∧
      (pastEntriesGoal.id = "a" →
        g'.id = pastEntriesGoal.id ∧ g'.title = pastEntriesGoal.title ∧
          g'.type = pastEntriesGoal.type ∧ g'.notes = pastEntriesGoal.notes ∧
          g'.targetCount = pastEntriesGoal.targetCount ∧
          g'.dueDate = pastEntriesGoal.dueDate ∧
          g'.createdAt = pastEntriesGoal.createdAt ∧
          ∀ k, k ≠ getPeriodKey pastEntriesGoal.type sampleDate →
            lookupEntry g'.entries k = lookupEntry pastEntriesGoal.entries k)) :=
  ⟨(adjust_frame sampleDate [pastEntriesGoal] "a" 1).1,
   (adjust_frame sampleDate [pastEntriesGoal] "a" 1).2 0 pastEntriesGoal rfl⟩

/-- C10: `Adjust(goalId, -1)` on an existing goal whose current period
key is absent from its entries map is not a pure no-op on the state:
it inserts the key with value 0, so the entries map changes (its
domain grows) even though every count read back is unchanged. -/
theorem adjust_decrement_inserts_key (now : JsDate) (goals : List Goal)
    (goalId : String) (i : Nat) (g : Goal) (hg : goals[i]? = some g)
    (hid : g.id = goalId)
    (habsent : lookupEntry g.entries (getPeriodKey g.type now) = none) :
    ∃ g', (updateGoalCount now goalId (-1) goals)[i]? = some g' ∧
      lookupEntry g'.entries (getPeriodKey g.type now) = some 0 ∧
      g'.entries ≠ g.entries ∧
      ∀ k, getCountForPeriod g' k = getCountForPeriod g k := by
  have hcount : getCountForPeriod g (getPeriodKey g.type now) = 0 := by
    simp [getCountForPeriod, habsent]
  have hval : max 0 (getCountForPeriod g (getPeriodKey g.type now) + (-1)) = 0 := by
    rw [hcount]
    exact max_eq_left (by norm_num)
  have hadj : adjustOne now goalId (-1) g = adjustedGoal now (-1) g :=
    adjustOne_of_eq now goalId (-1) g hid
  have hself : lookupEntry (adjustedGoal now (-1) g).entries
      (getPeriodKey g.type now) = some 0 := by
    simp only [adjustedGoal]
    rw [lookupEntry_setEntry_self, hval]
  refine ⟨adjustOne now goalId (-1) g,
    by simp [updateGoalCount, List.getElem?_map, hg], ?_, ?_, ?_⟩
  · rw [hadj]
    exact hself
  · rw [hadj]
    intro heq
    rw [heq] at hself
    rw [habsent] at hself
    exact Option.noConfusion hself
  · intro k
    rw [hadj]
    by_cases hk : k = getPeriodKey g.type now
    · subst hk
      rw [getCountForPeriod, hself, hcount]
      rfl
    · simp only [getCountForPeriod, adjustedGoal]
      rw [lookupEntry_setEntry_ne g.entries (getPeriodKey g.type now) _ k hk]

/-- C10 witness: decrementing the fresh daily goal at count 0 inserts
its day key with value 0 while all counts read back unchanged. -/
theorem adjust_decrement_inserts_key_witness :
    ∃ g', (updateGoalCount sampleDate "a" (-1) [sampleGoal])[0]? = some g' ∧
      lookupEntry g'.entries (getPeriodKey sampleGoal.type sampleDate) = some 0 ∧
      g'.entries ≠ sampleGoal.entries ∧
      ∀ k, getCountForPeriod g' k = getCountForPeriod sampleGoal k :=
  adjust_decrement_inserts_key sampleDate [sampleGoal] "a" 0 sampleGoal rfl rfl rfl

/-- With a non-blank title, `handleSubmit` prepends exactly
`createdGoal`. -/
theorem handleSubmit_of_ne (form : GoalForm) (freshId nowIso : String)
    (goals : List Goal) (h : jsTrim form.title ≠ "") :
    handleSubmit form freshId nowIso goals
      = createdGoal form freshId nowIso :: goals := by
  simp only [handleSubmit, if_neg h]
  rfl

/-- The normalised target count is never the number zero. -/
theorem submittedTargetCount_ne_zero (input : String) :
    submittedTargetCount input ≠ some 0 := by
  by_cases hi : input = ""
  · simp [submittedTargetCount, hi]
  · cases hp : jsParseInt input with
    | none => simp [submittedTargetCount, hi, hp]
    | some t => by_cases ht : t = 0 <;> simp [submittedTargetCount, hi, hp, ht]

/-- Non-numeric input (`NaN`) normalises to an absent target. -/
theorem submittedTargetCount_of_nan (input : String)
    (hp : jsParseInt input = none) : submittedTargetCount input = none := by
  by_cases hi : input = "" <;> simp [submittedTargetCount, hi, hp]

/-- Zero input normalises to an absent target. -/
theorem submittedTargetCount_of_zero (input : String)
    (hp : jsParseInt input = some 0) : submittedTargetCount input = none := by
  by_cases hi : input = "" <;> simp [submittedTargetCount, hi, hp]

/-- C2: `Create` with a title that trims to empty leaves the list
unchanged; with a non-blank title it prepends exactly one new goal
carrying the trimmed title, the fresh id, the given type and an empty
entries map. -/
theorem create_prepends_goal (form : GoalForm) (freshId nowIso : String)
    (goals : List Goal) :
    (jsTrim form.title = "" → handleSubmit form freshId nowIso goals = goals) ∧
    (jsTrim form.title ≠ "" →
      ∃ g, handleSubmit form freshId nowIso goals = g :: goals ∧
        g.title = jsTrim form.title ∧ g.id = freshId ∧ g.type = form.type ∧
        g.entries = []) := by
  constructor
  · intro h
    simp [handleSubmit, h]
  · intro h
    exact ⟨createdGoal form freshId nowIso,
      handleSubmit_of_ne form freshId nowIso goals h, rfl, rfl, rfl, rfl⟩

/-- C2 witness: a whitespace-only title is a no-op, and a real title
prepends the new goal. -/
theorem create_prepends_goal_witness :
    (handleSubmit blankTitleForm "i1" "t1" [sampleGoal] = [sampleGoal]) ∧
    (∃ g, handleSubmit hikeForm "i1" "t1" [sampleGoal] = g :: [sampleGoal] ∧
      g.title = jsTrim hikeForm.title ∧ g.id = "i1" ∧ g.type = hikeForm.type ∧
      g.entries = []) :=
  ⟨(create_prepends_goal blankTitleForm "i1" "t1" [sampleGoal]).1 (by decide),
   (create_prepends_goal hikeForm "i1" "t1" [sampleGoal]).2 (by decide)⟩

/-- C3 counterexample: the form input `"-3"` creates a goal with
`targetCount = -3`, a negative target, refuting "no created goal
carries a zero or negative targetCount". -/
theorem create_negative_target_counterexample :
    (handleSubmit negTargetForm "i1" "t1" []).map Goal.targetCount = [some (-3)] ∧
    (-3 : Int) < 0 := by decide

/-- C3 (amended): a created goal's targetCount is either absent or a
nonzero integer — non-numeric or zero input is normalised to absent
and no created goal carries a zero targetCount, but negative numeric
input is kept as a negative targetCount. -/
theorem create_target_not_zero (form : GoalForm) (freshId nowIso : String)
    (goals : List Goal) (h : jsTrim form.title ≠ "") :
    ∃ g, handleSubmit form freshId nowIso goals = g :: goals ∧
      g.targetCount = submittedTargetCount form.targetCount ∧
      g.targetCount ≠ some 0 ∧
      (jsParseInt form.targetCount = none → g.targetCount = none) ∧
      (jsParseInt form.targetCount = some 0 → g.targetCount = none) :=
  ⟨createdGoal form freshId nowIso,
    handleSubmit_of_ne form freshId nowIso goals h, rfl,
    submittedTargetCount_ne_zero form.targetCount,
    submittedTargetCount_of_nan form.targetCount,
    submittedTargetCount_of_zero form.targetCount⟩

/-- C3 witness: creating from the sample form yields a target that is
not zero. -/
theorem create_target_not_zero_witness :
    ∃ g, handleSubmit hikeForm "i2" "t2" [] = g :: [] ∧
      g.targetCount = submittedTargetCount hikeForm.targetCount ∧
      g.targetCount ≠ some 0 ∧
      (jsParseInt hikeForm.targetCount = none → g.targetCount = none) ∧
      (jsParseInt hikeForm.targetCount = some 0 → g.targetCount = none) :=
  create_target_not_zero hikeForm "i2" "t2" [] (by decide)

/-- C4 counterexample: a goal whose stored targetCount is the number 0
("set") resolves to target 1, not to its targetCount, refuting
"Target(goal) equals targetCount whenever targetCount is set". -/
theorem target_zero_counterexample :
    zeroTargetGoal.targetCount = some 0 ∧
    getTargetForGoal zeroTargetGoal ≠ zeroTargetGoal.targetCount := by decide

/-- C4 (amended): `Target(goal)` equals `targetCount` whenever it is
set to a nonzero value; when it is absent or zero it is 1 for a daily
or monthly goal and absent for an anytime goal. -/
theorem target_defaults (g : Goal) :
    (∀ t : Int, g.targetCount = some t → t ≠ 0 → getTargetForGoal g = some t) ∧
    (g.targetCount = none ∨ g.targetCount = some 0 →
      (g.type = GoalType.anytime → getTargetForGoal g = none) ∧
      (g.type ≠ GoalType.anytime → getTargetForGoal g = some 1)) := by
  constructor
  · intro t ht hnz
    simp [getTargetForGoal, jsTruthy, ht, hnz]
  · intro h
    constructor
    · intro hty
      rcases h with h | h <;> simp [getTargetForGoal, jsTruthy, h, hty]
    · intro hty
      rcases h with h | h <;> simp [getTargetForGoal, jsTruthy, h, hty]

/-- C4 witness: a set nonzero target is returned as is; an absent
target on a daily goal defaults to 1. -/
theorem target_defaults_witness :
    getTargetForGoal dailyFourGoal = some 4 ∧ getTargetForGoal sampleGoal = some 1 :=
  ⟨(target_defaults dailyFourGoal).1 4 rfl (by norm_num),
   ((target_defaults sampleGoal).2 (Or.inl rfl)).2 (by decide)⟩

/-- C5: the completion rate is `round(100 * totalComplete / totalGoals)`
for a non-empty list — `totalComplete` being the sum over the three
types of the goals complete at that type's current period key — is `0`
for the empty list, and always lies between 0 and 100. -/
theorem stats_completion_rate (now : JsDate) (goals : List Goal) :
    (goals ≠ [] →
      (stats now goals).completionRate
        = jsRound (100 * (((stats now goals).dailyDone
            + (stats now goals).monthlyDone
            + (stats now goals).anytimeDone : Nat) : Rat) / (goals.length : Rat))) ∧
    (goals = [] → (stats now goals).completionRate = 0) ∧
    0 ≤ (stats now goals).completionRate ∧
    (stats now goals).completionRate ≤ 100 := by
  have hsum : ((stats now goals).dailyDone + (stats now goals).monthlyDone
      + (stats now goals).anytimeDone : Nat) = completedGoalsOf now goals := rfl
  by_cases hnil : goals = []
  · subst hnil
    have h0 : (stats now ([] : List Goal)).completionRate = 0 := rfl
    exact ⟨fun h => absurd rfl h, fun _ => h0, by rw [h0], by rw [h0]; norm_num⟩
  · have hlen : goals.length ≠ 0 := by
      simpa [List.length_eq_zero] using hnil
    have hrate : (stats now goals).completionRate
        = jsRound ((completedGoalsOf now goals : Rat) / (goals.length : Rat) * 100) := by
      simp [stats, hlen]
    have hc := completedGoalsOf_le now goals
    have hcast : ((completedGoalsOf now goals : Nat) : Rat) ≤ (goals.length : Rat) := by
      exact_mod_cast hc
    have hpos : (0 : Rat) < (goals.length : Rat) := by
      exact_mod_cast Nat.pos_of_ne_zero hlen
    have hq0 : (0 : Rat) ≤ (completedGoalsOf now goals : Rat) / (goals.length : Rat) * 100 := by
      positivity
    have hdiv : (completedGoalsOf now goals : Rat) / (goals.length : Rat) ≤ 1 :=
      div_le_one_of_le₀ hcast (le_of_lt hpos)
    have hq1 : (completedGoalsOf now goals : Rat) / (goals.length : Rat) * 100 ≤ 100 := by
      nlinarith
    refine ⟨fun _ => ?_, fun h => absurd h hnil, ?_, ?_⟩
    · rw [hrate, hsum]
      congr 1
      ring
    · rw [hrate]
      exact jsRound_nonneg hq0
    · rw [hrate]
      exact jsRound_le_hundred hq1

/-- C5 witness: the rate formula at a concrete one-goal list, and the
zero rate of the empty list. -/
theorem stats_completion_rate_witness :
    ((stats sampleDate [sampleGoal]).completionRate
      = jsRound (100 * (((stats sampleDate [sampleGoal]).dailyDone
          + (stats sampleDate [sampleGoal]).monthlyDone
          + (stats sampleDate [sampleGoal]).anytimeDone : Nat) : Rat)
          / (([sampleGoal] : List Goal).length : Rat))) ∧
    (stats sampleDate ([] : List Goal)).completionRate = 0 :=
  ⟨(stats_completion_rate sampleDate [sampleGoal]).1 (by simp),
   (stats_completion_rate sampleDate []).2.1 rfl⟩

/-- C6: whenever the target is defined, the progress value equals
`min(100, round(100 * count / target))`; concretely, a daily goal with
target 4 is complete with progress 100 after 4 check-ins and has
progress 75 after 3. -/
theorem progress_formula :
    (∀ (g : Goal) (periodKey : String) (t : Int), getTargetForGoal g = some t →
      progress g periodKey
        = min 100 (jsRound (100 * (getCountForPeriod g periodKey : Rat) / (t : Rat)))) ∧
    (checkIns sampleDate "g1" 4 [dailyFourGoal]).map
        (fun g => (isGoalComplete g (getPeriodKey GoalType.daily sampleDate),
          progress g (getPeriodKey GoalType.daily sampleDate))) = [(true, 100)] ∧
    (checkIns sampleDate "g1" 3 [dailyFourGoal]).map
        (fun g => progress g (getPeriodKey GoalType.daily sampleDate)) = [75] := by
  refine ⟨?_, ?_, ?_⟩
  · intro g periodKey t ht
    have hnz : t ≠ 0 := by
      intro h0
      subst h0
      exact getTargetForGoal_ne_zero g ht
    have harith : (getCountForPeriod g periodKey : Rat) / (t : Rat) * 100
        = 100 * (getCountForPeriod g periodKey : Rat) / (t : Rat) := by ring
    simp only [progress, ht, if_pos hnz, harith]
  · have h4 : checkIns sampleDate "g1" 4 [dailyFourGoal]
        = [⟨"g1", "walk", GoalType.daily, "", some 4, none,
            "2026-01-11T00:00:00Z", [("2026-01-11", 4)]⟩] := by decide
    rw [h4, List.map_cons, List.map_nil]
    have hic : isGoalComplete ⟨"g1", "walk", GoalType.daily, "", some 4, none,
        "2026-01-11T00:00:00Z", [("2026-01-11", 4)]⟩
        (getPeriodKey GoalType.daily sampleDate) = true := by decide
    have htg : getTargetForGoal ⟨"g1", "walk", GoalType.daily, "", some 4, none,
        "2026-01-11T00:00:00Z", [("2026-01-11", 4)]⟩ = some 4 := by decide
    have hcnt : getCountForPeriod ⟨"g1", "walk", GoalType.daily, "", some 4, none,
        "2026-01-11T00:00:00Z", [("2026-01-11", 4)]⟩
        (getPeriodKey GoalType.daily sampleDate) = 4 := by decide
    have hpr : progress ⟨"g1", "walk", GoalType.daily, "", some 4, none,
        "2026-01-11T00:00:00Z", [("2026-01-11", 4)]⟩
        (getPeriodKey GoalType.daily sampleDate) = 100 := by
      simp only [progress, htg, hcnt]
      rw [if_pos (by norm_num : (4 : Int) ≠ 0), jsRound_eq]
      norm_num
    rw [hic, hpr]
  · have h3 : checkIns sampleDate "g1" 3 [dailyFourGoal]
        = [⟨"g1", "walk", GoalType.daily, "", some 4, none,
            "2026-01-11T00:00:00Z", [("2026-01-11", 3)]⟩] := by decide
    rw [h3, List.map_cons, List.map_nil]
    have htg : getTargetForGoal ⟨"g1", "walk", GoalType.daily, "", some 4, none,
        "2026-01-11T00:00:00Z", [("2026-01-11", 3)]⟩ = some 4 := by decide
    have hcnt : getCountForPeriod ⟨"g1", "walk", GoalType.daily, "", some 4, none,
        "2026-01-11T00:00:00Z", [("2026-01-11", 3)]⟩
        (getPeriodKey GoalType.daily sampleDate) = 3 := by decide
    have hpr : progress ⟨"g1", "walk", GoalType.daily, "", some 4, none,
        "2026-01-11T00:00:00Z", [("2026-01-11", 3)]⟩
        (getPeriodKey GoalType.daily sampleDate) = 75 := by
      simp only [progress, htg, hcnt]
      rw [if_pos (by norm_num : (4 : Int) ≠ 0), jsRound_eq]
      norm_num
    rw [hpr]

/-- C6 witness: the progress formula instantiated at the sample daily
goal with target 4 (count 0 at an unused key). -/
theorem progress_formula_witness :
    progress dailyFourGoal "2026-01-12"
      = min 100 (jsRound (100 * (getCountForPeriod dailyFourGoal "2026-01-12" : Rat)
          / ((4 : Int) : Rat))) :=
  progress_formula.1 dailyFourGoal "2026-01-12" 4 (by decide)

/-- C7: an anytime goal with no targetCount is complete exactly when
its count at period key `"all"` is positive, and its resolved target
is absent (so no progress bar is rendered for it). -/
theorem anytime_complete_iff (g : Goal) (hty : g.type = GoalType.anytime)
    (htc : g.targetCount = none) :
    (isGoalComplete g "all" = true ↔ 0 < getCountForPeriod g "all") ∧
    getTargetForGoal g = none := by
  have ht : getTargetForGoal g = none := by
    simp [getTargetForGoal, jsTruthy, htc, hty]
  refine ⟨?_, ht⟩
  simp [isGoalComplete, ht]

/-- C7 witness: the sample anytime goal with one check-in. -/
theorem anytime_complete_iff_witness :
    ((isGoalComplete anytimeSampleGoal "all" = true
        ↔ 0 < getCountForPeriod anytimeSampleGoal "all") ∧
      getTargetForGoal anytimeSampleGoal = none) :=
  anytime_complete_iff anytimeSampleGoal rfl rfl

/-- C8: at startup, a missing stored value, a value that fails to
parse, or a parse result that is not an array all leave the store
empty; a parsed array is accepted verbatim with no per-field
validation.  The parser stands for `JSON.parse` and is only assumed to
fail on the empty string (which is falsy and never parsed anyway). -/
theorem load_discards_bad_data (jsonParse : String → Option Json)
    (hp : jsonParse "" = none) (stored : Option String) :
    (stored = none → loadStoredGoals jsonParse stored = []) ∧
    (∀ s, stored = some s →
      ((∀ elems, jsonParse s ≠ some (Json.arr elems)) →
        loadStoredGoals jsonParse stored = []) ∧
      (∀ elems, jsonParse s = some (Json.arr elems) →
        loadStoredGoals jsonParse stored = elems)) := by
  constructor
  · intro h
    subst h
    rfl
  · intro s hs
    subst hs
    by_cases he : s = ""
    · subst he
      constructor
      · intro _
        simp [loadStoredGoals]
      · intro elems harr
        rw [hp] at harr
        exact Option.noConfusion harr
    · constructor
      · intro hna
        cases hj : jsonParse s with
        | none => simp [loadStoredGoals, he, hj]
        | some v =>
          cases v with
          | arr elems => exact absurd hj (hna elems)
          | null => simp [loadStoredGoals, he, hj]
          | bool b => simp [loadStoredGoals, he, hj]
          | num q => simp [loadStoredGoals, he, hj]
          | str t => simp [loadStoredGoals, he, hj]
          | obj fields => simp [loadStoredGoals, he, hj]
      · intro elems harr
        simp [loadStoredGoals, he, harr]

/-- C8 witness: a failing parse and a missing value load as the empty
list; an array parse is taken verbatim. -/
theorem load_discards_bad_data_witness :
    (loadStoredGoals failParse none = []) ∧
    (loadStoredGoals failParse (some "oops") = []) ∧
    (loadStoredGoals arrParse (some "x") = [Json.num 1]) :=
  ⟨(load_discards_bad_data failParse rfl none).1 rfl,
   ((load_discards_bad_data failParse rfl (some "oops")).2 "oops" rfl).1
     (fun _ h => Option.noConfusion h),
   ((load_discards_bad_data arrParse rfl (some "x")).2 "x" rfl).2 [Json.num 1] rfl⟩

end Summit
